import Mathlib

/-!
# Barchart (d3 interactive bar chart activity, `template/js/barchart.js`)

A shallow embedding of the `Barchart` class and of the parts of the d3 library
it calls, followed by theorems about construction, `updateVis` and `renderVis`.

Numbers are rationals.  The arithmetic of the scales is read twice: exactly
(the definitions with the source's names), and in IEEE 754 doubles, rounding
after every operation as JavaScript does (the definitions named `...Double`).
A JavaScript `NaN` / `undefined` result is an `Option` value `none`; the
comment at each definition says which of the two.
-/

/-! ## Data model -/

/-- One element of the dataset: the fields read by the accessors
`d => d.state` and `d => d.percent`. -/
structure Record where
  state : String
  percent : ℚ

/-- The `margin` object of the configuration. -/
structure Margin where
  top : ℚ
  right : ℚ
  bottom : ℚ
  left : ℚ

/-- The `_config` argument of the constructor.  An optional field that is
`none` is missing from the object (reads as `undefined`). -/
structure RawConfig where
  parentElement : String
  containerWidth : Option ℚ
  containerHeight : Option ℚ
  margin : Option Margin

/-- The object stored in `this.config` (barchart.js lines 9-19). -/
structure Config where
  parentElement : String
  containerWidth : ℚ
  containerHeight : ℚ
  margin : Margin

/-- Value of a numeric SVG attribute of a bar: not set, set to `NaN`, or set
to a number. -/
inductive Attr where
  | absent : Attr
  | nan : Attr
  | num (v : ℚ) : Attr

/-- A `rect` element of class `bar` inside the chart group, with the datum
bound to it by the data join (`__data__`). -/
structure Bar where
  datum : Record
  fill : String
  width : Attr
  height : Attr
  y : Attr
  x : Attr

/-! ## The d3 functions used by the class -/

/-- Modelled from the spec: `d3.max(values, accessor)` of the d3 library, which
is not part of this repository (the spec's "maximum-value scan"); the fold is
d3-array's loop `if (max < value || (max === undefined && value >= value)) max = value`
over the accessor's values.  `none` is `undefined`, returned for no values. -/
def d3.max (values : List ℚ) : Option ℚ :=
  values.foldl
    (fun m value =>
      match m with
      | none => some value
      | some m => if m < value then some value else some m)
    none

/-- Modelled from the spec: state of a `d3.scaleLinear()` object of the d3
library, which is not part of this repository (the spec's "linear scale:
a mapping from a continuous numeric domain to a continuous numeric range via
affine interpolation").  The second domain entry is `none` when it is `NaN`
(d3 coerces the entries with `+x`, and `+undefined` is `NaN`).  A new scale has
domain `[0, 1]` and range `[0, 1]`. -/
structure LinearScale where
  domain : ℚ × Option ℚ := (0, some 1)
  range : ℚ × ℚ := (0, 1)

/-- Modelled from the spec: `d3.scaleLinear()` of the d3 library (not part of
this repository), a linear scale with d3's default domain and range. -/
def d3.scaleLinear : LinearScale := {}

/-- Modelled from the spec: d3-scale's `normalize(a, b)` (not part of this
repository): `x ↦ (x - a) / (b - a)`, or the constant `0.5` when `b - a` is 0. -/
def d3.normalize (a b x : ℚ) : ℚ :=
  if b - a ≠ 0 then (x - a) / (b - a) else 1 / 2

/-- Modelled from the spec: d3-interpolate's `interpolateNumber(a, b)` (not
part of this repository): `t ↦ a * (1 - t) + b * t`, the spec's "affine
interpolation". -/
def d3.interpolateNumber (a b t : ℚ) : ℚ :=
  a * (1 - t) + b * t

/-- Modelled from the spec: d3-scale's `bimap(domain, range, interpolate)` (not
part of this repository), the two-point map of a continuous scale; a descending
domain is normalised from its lower end with the range swapped. -/
def d3.bimap (d0 d1 r0 r1 x : ℚ) : ℚ :=
  if d1 < d0 then d3.interpolateNumber r1 r0 (d3.normalize d1 d0 x)
  else d3.interpolateNumber r0 r1 (d3.normalize d0 d1 x)

/-- Modelled from the spec: calling a d3 linear scale on a number (d3 library,
not part of this repository).  `none` is `NaN`, the result when the domain's
upper entry is `NaN`. -/
def LinearScale.apply (s : LinearScale) (x : ℚ) : Option ℚ :=
  match s.domain.2 with
  | none => none
  | some d1 => some (d3.bimap s.domain.1 d1 s.range.1 s.range.2 x)

/-- Modelled from the spec: the `domain(values)` setter of a d3 ordinal scale
(d3 library, not part of this repository): values are pushed in order and a
value already seen is skipped, the spec's "ordered set of distinct category
values encountered in the dataset, in first-occurrence order". -/
def d3.ordinalDomain (values : List String) : List String :=
  values.foldl (fun domain value => if value ∈ domain then domain else domain ++ [value]) []

/-- Modelled from the spec: state of a `d3.scaleBand()` object of the d3
library, which is not part of this repository (the spec's "band scale: a
mapping from a finite ordered set of categories to evenly spaced, equal-width
intervals within a pixel range, with configurable inter-band padding").  A new
band scale has an empty domain, range `[0, 1]`, no padding and alignment `0.5`;
rounding is off and the class never turns it on. -/
structure BandScale where
  domain : List String := []
  r0 : ℚ := 0
  r1 : ℚ := 1
  paddingInner : ℚ := 0
  paddingOuter : ℚ := 0
  align : ℚ := 1 / 2

/-- Modelled from the spec: `d3.scaleBand()` of the d3 library (not part of
this repository), a band scale with d3's defaults. -/
def d3.scaleBand : BandScale := {}

/-- Modelled from the spec: the `paddingInner(p)` setter of a d3 band scale
(d3 library, not part of this repository): stores `Math.min(1, p)`. -/
def BandScale.setPaddingInner (s : BandScale) (p : ℚ) : BandScale :=
  { s with paddingInner := Min.min 1 p }

/-- Modelled from the spec: the `domain(values)` setter of a d3 band scale
(d3 library, not part of this repository). -/
def BandScale.setDomain (s : BandScale) (values : List String) : BandScale :=
  { s with domain := d3.ordinalDomain values }

/-- Modelled from the spec: `reverse = r1 < r0` in the `rescale` function of a
d3 band scale (d3 library, not part of this repository). -/
def BandScale.reverse (s : BandScale) : Bool := decide (s.r1 < s.r0)

/-- Modelled from the spec: `stop - start` in `rescale` of a d3 band scale
(d3 library, not part of this repository), the length of the range. -/
def BandScale.extent (s : BandScale) : ℚ :=
  if s.reverse then s.r0 - s.r1 else s.r1 - s.r0

/-- Modelled from the spec: `step` in `rescale` of a d3 band scale (d3 library,
not part of this repository):
`(stop - start) / Math.max(1, n - paddingInner + paddingOuter * 2)`, in exact
arithmetic; `BandScale.stepDouble` is the same line with IEEE rounding. -/
def BandScale.step (s : BandScale) : ℚ :=
  s.extent / Max.max 1 ((s.domain.length : ℚ) - s.paddingInner + s.paddingOuter * 2)

/-- Modelled from the spec: the position of the first band in `rescale` of a
d3 band scale (d3 library, not part of this repository):
`start += (stop - start - step * (n - paddingInner)) * align`, in exact
arithmetic; `BandScale.startDouble` is the same line with IEEE rounding. -/
def BandScale.start (s : BandScale) : ℚ :=
  (if s.reverse then s.r1 else s.r0)
    + (s.extent - s.step * ((s.domain.length : ℚ) - s.paddingInner)) * s.align

/-- Modelled from the spec: `bandwidth()` of a d3 band scale (d3 library, not
part of this repository): `step * (1 - paddingInner)`. -/
def BandScale.bandwidth (s : BandScale) : ℚ :=
  s.step * (1 - s.paddingInner)

/-- Modelled from the spec: the positions `start + step * i`, `i < n`, that
`rescale` of a d3 band scale (d3 library, not part of this repository) hands to
the underlying ordinal scale as its range, reversed for a descending range. -/
def BandScale.ordinalRange (s : BandScale) : List ℚ :=
  let values := (List.range s.domain.length).map (fun (i : ℕ) => s.start + s.step * (i : ℚ))
  if s.reverse then values.reverse else values

/-- Modelled from the spec: calling a d3 band scale on a category (d3 library,
not part of this repository): `range[i % range.length]` for the index `i` of
the category in the domain; `none` is `undefined`, the result for a category
that is not in the domain. -/
def BandScale.apply (s : BandScale) (d : String) : Option ℚ :=
  if d ∈ s.domain then
    s.ordinalRange[s.domain.indexOf d % s.ordinalRange.length]?
  else none

/-- Modelled from the spec: the key-less data join `selection.data(data)` of
the d3 library, which is not part of this repository (the spec's "matching by
position/index"): node `i` is rebound to record `i` (update), records past the
last node make the enter selection, nodes past the last record the exit
selection. -/
def d3.bindIndex (group : List Bar) (data : List Record) :
    List Bar × List Record × List Bar :=
  (List.zipWith (fun node d => { node with datum := d }) group data,
   data.drop group.length,
   group.drop data.length)

/-- Value written by `selection.attr(name, v)` for a number `v` that may be
`NaN` (`none`). -/
def Attr.ofNumber : Option ℚ → Attr
  | none => Attr.nan
  | some v => Attr.num v

/-- Value left by `selection.attr(name, v)` for a `v` that may be `undefined`
(`none`): d3 removes the attribute when the value is null or undefined. -/
def Attr.ofDefined : Option ℚ → Attr
  | none => Attr.absent
  | some v => Attr.num v

/-! ## The class -/

/-- The fields of a `Barchart` instance that the bars depend on.  `xValue` and
`yValue` are `none` until `updateVis` assigns them.  `bars` are the elements
matched by `vis.chart.selectAll(".bar")`, in document order. -/
structure Barchart where
  config : Config
  data : List Record
  width : ℚ
  height : ℚ
  yScale : LinearScale
  xScale : BandScale
  xValue : Option (Record → String)
  yValue : Option (Record → ℚ)
  bars : List Bar

/-- JavaScript `v || d` for a number `v` that may be missing: `undefined` and
`0` are falsy. -/
def orDefault (v : Option ℚ) (d : ℚ) : ℚ :=
  match v with
  | some q => if q = 0 then d else q
  | none => d

/-- `initVis` (barchart.js lines 32-91): inner size and the two scales.  The
svg, the chart group, the axis groups and the axis titles it appends carry no
`bar` class. -/
def Barchart.initVis (config : Config) (data : List Record) : Barchart :=
  let width := config.containerWidth - config.margin.left - config.margin.right
  let height := config.containerHeight - config.margin.top - config.margin.bottom
  { config := config
    data := data
    width := width
    height := height
    yScale := { d3.scaleLinear with range := (height, 0) }
    xScale := ({ d3.scaleBand with r0 := 0, r1 := width }).setPaddingInner (1 / 5)
    xValue := none
    yValue := none
    bars := [] }

/-- The constructor (barchart.js lines 7-23). -/
def Barchart.constructor (_config : RawConfig) (_data : List Record) : Barchart :=
  Barchart.initVis
    { parentElement := _config.parentElement
      containerWidth := orDefault _config.containerWidth 1000
      containerHeight := orDefault _config.containerHeight 600
      margin := match _config.margin with
        | some m => m
        | none => { top := 70, right := 50, bottom := 100, left := 50 } }
    _data

/-- The element made by `.append("rect").attr("class", "bar").attr("fill", "steelblue")`
for an entering record. -/
def Barchart.appendRect (d : Record) : Bar :=
  { datum := d, fill := "steelblue",
    width := Attr.absent, height := Attr.absent, y := Attr.absent, x := Attr.absent }

/-- `renderVis` (barchart.js lines 117-138).  The attribute calls run one
after the other over the merged selection; a call whose function reads an
accessor that is still `undefined` throws a `TypeError` at the first element,
and `Except.error` carries the instance as the exception leaves it.  The two
axis redraws at the end touch no bar. -/
def Barchart.renderVis (vis : Barchart) : Except Barchart Barchart :=
  let (update, enter, exit) := d3.bindIndex vis.bars vis.data
  let merged := update ++ enter.map Barchart.appendRect
  let merged := merged.map (fun b => { b with width := Attr.num vis.xScale.bandwidth })
  if merged.isEmpty then
    Except.ok { vis with bars := merged }
  else
    match vis.yValue with
    | none => Except.error { vis with bars := merged ++ exit }
    | some yValue =>
      let merged := merged.map (fun b =>
        { b with height := Attr.ofNumber ((vis.yScale.apply (yValue b.datum)).map (vis.height - ·)) })
      let merged := merged.map (fun b =>
        { b with y := Attr.ofNumber (vis.yScale.apply (yValue b.datum)) })
      match vis.xValue with
      | none => Except.error { vis with bars := merged ++ exit }
      | some xValue =>
        let merged := merged.map (fun b =>
          { b with x := Attr.ofDefined (vis.xScale.apply (xValue b.datum)) })
        Except.ok { vis with bars := merged }

/-- `updateVis` (barchart.js lines 98-110). -/
def Barchart.updateVis (vis : Barchart) : Except Barchart Barchart :=
  let xValue : Record → String := fun d => d.state
  let yValue : Record → ℚ := fun d => d.percent
  Barchart.renderVis
    { vis with
      xValue := some xValue
      yValue := some yValue
      yScale := { vis.yScale with domain := (0, d3.max (vis.data.map yValue)) }
      xScale := vis.xScale.setDomain (vis.data.map xValue) }

/-- The assignment `vis.data = D` a caller makes before `updateVis`. -/
def Barchart.setData (vis : Barchart) (D : List Record) : Barchart :=
  { vis with data := D }

/-- What a caller can do with an instance after construction. -/
inductive Call where
  | setData (D : List Record) : Call
  | updateVis : Call
  | renderVis : Call

/-- The instance after a call, whether the call returned or threw. -/
def Barchart.settle : Except Barchart Barchart → Barchart
  | Except.ok vis => vis
  | Except.error vis => vis

/-- One call on an instance. -/
def Barchart.step (vis : Barchart) : Call → Barchart
  | Call.setData D => vis.setData D
  | Call.updateVis => Barchart.settle vis.updateVis
  | Call.renderVis => Barchart.settle vis.renderVis

/-- A sequence of calls, first to last. -/
def Barchart.run (vis : Barchart) (calls : List Call) : Barchart :=
  calls.foldl Barchart.step vis

/-- The merged selection of `renderVis`: rebound nodes followed by the appended
ones. -/
def Barchart.joined (group : List Bar) (data : List Record) : List Bar :=
  (d3.bindIndex group data).1 ++ (d3.bindIndex group data).2.1.map Barchart.appendRect

/-- A bar after the four attribute calls of `renderVis`. -/
def Barchart.paint (vis : Barchart) (xValue : Record → String) (yValue : Record → ℚ)
    (b : Bar) : Bar :=
  { datum := b.datum
    fill := b.fill
    width := Attr.num vis.xScale.bandwidth
    height := Attr.ofNumber ((vis.yScale.apply (yValue b.datum)).map (vis.height - ·))
    y := Attr.ofNumber (vis.yScale.apply (yValue b.datum))
    x := Attr.ofDefined (vis.xScale.apply (xValue b.datum)) }

/-- The instance `updateVis` hands to `renderVis`: accessors and domains set. -/
def Barchart.prepared (vis : Barchart) : Barchart :=
  { vis with
    xValue := some (fun d => d.state)
    yValue := some (fun d => d.percent)
    yScale := { vis.yScale with domain := (0, d3.max (vis.data.map (fun d => d.percent))) }
    xScale := vis.xScale.setDomain (vis.data.map (fun d => d.state)) }

/-- What `initVis` fixes and no later call changes: inner size from the
configuration, the vertical range `[height, 0]`, and the band scale's range
`[0, width]` with inner padding `0.2`. -/
structure Barchart.Initialised (vis : Barchart) : Prop where
  width_eq : vis.width = vis.config.containerWidth - vis.config.margin.left - vis.config.margin.right
  height_eq : vis.height = vis.config.containerHeight - vis.config.margin.top - vis.config.margin.bottom
  yRange : vis.yScale.range = (vis.height, 0)
  xR0 : vis.xScale.r0 = 0
  xR1 : vis.xScale.r1 = vis.width
  xPaddingInner : vis.xScale.paddingInner = 1 / 5
  xPaddingOuter : vis.xScale.paddingOuter = 0
  xAlign : vis.xScale.align = 1 / 2

/-! ## The same computations in IEEE 754 doubles

JavaScript numbers are IEEE 754 binary64 values and every arithmetic operation
rounds its exact result to the nearest one.  The definitions above read the
program's arithmetic exactly; the definitions below, named `...Double`, read
the same source lines with that rounding after each operation.  Their numeric
arguments are taken to be doubles already. -/

/-- Position of the leading binary digit of `n` (`0` for `n < 2`); the first
argument bounds the number of halvings and is taken to be `n` itself. -/
def Float64.log2 : ℕ → ℕ → ℕ
  | 0, _ => 0
  | fuel + 1, n => if n < 2 then 0 else Float64.log2 fuel (n / 2) + 1

/-- The binary exponent `e` of a positive fraction `n / d`:
`2 ^ e ≤ n / d < 2 ^ (e + 1)`. -/
def Float64.exponent (n d : ℕ) : ℤ :=
  let e0 : ℤ := (Float64.log2 n n : ℤ) - (Float64.log2 d d : ℤ)
  if n * 2 ^ (-e0).toNat < d * 2 ^ e0.toNat then e0 - 1 else e0

/-- The integer nearest to `N / D`, a tie going to the even one. -/
def Float64.roundNat (N D : ℕ) : ℕ :=
  let f := N / D
  let r := N % D
  if 2 * r < D then f else if D < 2 * r then f + 1 else if f % 2 = 0 then f else f + 1

/-- The double nearest to the real number `x` (round to nearest, ties to
even): a 53-bit significand at the exponent of `x`, or a multiple of
`2 ^ (-1074)` below `2 ^ (-1022)` (subnormals).  This is the result of one
JavaScript arithmetic operation whose exact result is `x`.  The sign of a zero
is not kept, and a magnitude that IEEE 754 rounds to an infinity (from
`2 ^ 1024 - 2 ^ 970` on) is rounded as if the exponent had no upper limit. -/
def Float64.round (x : ℚ) : ℚ :=
  let n := x.num.natAbs
  let d := x.den
  if n = 0 then 0
  else
    let q : ℤ := Max.max (Float64.exponent n d) (-1022) - 52
    let m := Float64.roundNat (n * 2 ^ (-q).toNat) (d * 2 ^ q.toNat)
    (if x.num < 0 then -1 else 1) * ((m : ℚ) * 2 ^ q.toNat / 2 ^ (-q).toNat)

/-- Modelled from the spec: `d3.normalize` (d3 library, not part of this
repository) in doubles: `b -= a`, then `x ↦ (x - a) / b`, or the constant
`0.5` when `b` is 0. -/
def d3.normalizeDouble (a b x : ℚ) : ℚ :=
  if Float64.round (b - a) ≠ 0 then
    Float64.round (Float64.round (x - a) / Float64.round (b - a))
  else 1 / 2

/-- Modelled from the spec: `d3.interpolateNumber` (d3 library, not part of
this repository) in doubles: `a * (1 - t) + b * t`. -/
def d3.interpolateNumberDouble (a b t : ℚ) : ℚ :=
  Float64.round (Float64.round (a * Float64.round (1 - t)) + Float64.round (b * t))

/-- Modelled from the spec: `d3.bimap` (d3 library, not part of this
repository) in doubles. -/
def d3.bimapDouble (d0 d1 r0 r1 x : ℚ) : ℚ :=
  if d1 < d0 then d3.interpolateNumberDouble r1 r0 (d3.normalizeDouble d1 d0 x)
  else d3.interpolateNumberDouble r0 r1 (d3.normalizeDouble d0 d1 x)

/-- Modelled from the spec: calling a d3 linear scale (d3 library, not part of
this repository) in doubles; `none` is `NaN`. -/
def LinearScale.applyDouble (s : LinearScale) (x : ℚ) : Option ℚ :=
  match s.domain.2 with
  | none => none
  | some d1 => some (d3.bimapDouble s.domain.1 d1 s.range.1 s.range.2 x)

/-- Modelled from the spec: `stop - start` in `rescale` of a d3 band scale
(d3 library, not part of this repository) in doubles. -/
def BandScale.extentDouble (s : BandScale) : ℚ :=
  if s.reverse then Float64.round (s.r0 - s.r1) else Float64.round (s.r1 - s.r0)

/-- Modelled from the spec: `n - paddingInner` in `rescale` of a d3 band scale
(d3 library, not part of this repository) in doubles. -/
def BandScale.countLessPaddingDouble (s : BandScale) : ℚ :=
  Float64.round ((s.domain.length : ℚ) - s.paddingInner)

/-- Modelled from the spec: `step` in `rescale` of a d3 band scale (d3 library,
not part of this repository) in doubles:
`(stop - start) / Math.max(1, n - paddingInner + paddingOuter * 2)`. -/
def BandScale.stepDouble (s : BandScale) : ℚ :=
  Float64.round (s.extentDouble
    / Max.max 1 (Float64.round (s.countLessPaddingDouble + Float64.round (s.paddingOuter * 2))))

/-- Modelled from the spec: the position of the first band in `rescale` of a
d3 band scale (d3 library, not part of this repository) in doubles:
`start += (stop - start - step * (n - paddingInner)) * align`. -/
def BandScale.startDouble (s : BandScale) : ℚ :=
  Float64.round ((if s.reverse then s.r1 else s.r0)
    + Float64.round
        (Float64.round (s.extentDouble - Float64.round (s.stepDouble * s.countLessPaddingDouble))
          * s.align))

/-- Modelled from the spec: `bandwidth()` of a d3 band scale (d3 library, not
part of this repository) in doubles: `step * (1 - paddingInner)`. -/
def BandScale.bandwidthDouble (s : BandScale) : ℚ :=
  Float64.round (s.stepDouble * Float64.round (1 - s.paddingInner))

/-- Modelled from the spec: the positions `start + step * i`, `i < n`, of
`rescale` of a d3 band scale (d3 library, not part of this repository) in
doubles, reversed for a descending range. -/
def BandScale.ordinalRangeDouble (s : BandScale) : List ℚ :=
  let values := (List.range s.domain.length).map
    (fun (i : ℕ) => Float64.round (s.startDouble + Float64.round (s.stepDouble * (i : ℚ))))
  if s.reverse then values.reverse else values

/-- Modelled from the spec: calling a d3 band scale on a category (d3 library,
not part of this repository) with the positions computed in doubles; `none`
is `undefined`. -/
def BandScale.applyDouble (s : BandScale) (d : String) : Option ℚ :=
  if d ∈ s.domain then
    s.ordinalRangeDouble[s.domain.indexOf d % s.ordinalRangeDouble.length]?
  else none

/-- `initVis` (barchart.js lines 32-91) in doubles: the two subtractions of
each inner size round, and the literal `0.2` is the double nearest to 1/5. -/
def Barchart.initVisDouble (config : Config) (data : List Record) : Barchart :=
  let width := Float64.round
    (Float64.round (config.containerWidth - config.margin.left) - config.margin.right)
  let height := Float64.round
    (Float64.round (config.containerHeight - config.margin.top) - config.margin.bottom)
  { config := config
    data := data
    width := width
    height := height
    yScale := { d3.scaleLinear with range := (height, 0) }
    xScale := ({ d3.scaleBand with r0 := 0, r1 := width }).setPaddingInner (Float64.round (1 / 5))
    xValue := none
    yValue := none
    bars := [] }

/-- The constructor (barchart.js lines 7-23), followed by `initVis` in
doubles. -/
def Barchart.constructorDouble (_config : RawConfig) (_data : List Record) : Barchart :=
  Barchart.initVisDouble
    { parentElement := _config.parentElement
      containerWidth := orDefault _config.containerWidth 1000
      containerHeight := orDefault _config.containerHeight 600
      margin := match _config.margin with
        | some m => m
        | none => { top := 70, right := 50, bottom := 100, left := 50 } }
    _data

/-- `renderVis` (barchart.js lines 117-138) in doubles: the band width, the
two scale calls and the subtraction `vis.height - vis.yScale(...)` round. -/
def Barchart.renderVisDouble (vis : Barchart) : Except Barchart Barchart :=
  let (update, enter, exit) := d3.bindIndex vis.bars vis.data
  let merged := update ++ enter.map Barchart.appendRect
  let merged := merged.map (fun b => { b with width := Attr.num vis.xScale.bandwidthDouble })
  if merged.isEmpty then
    Except.ok { vis with bars := merged }
  else
    match vis.yValue with
    | none => Except.error { vis with bars := merged ++ exit }
    | some yValue =>
      let merged := merged.map (fun b =>
        { b with height := Attr.ofNumber ((vis.yScale.applyDouble (yValue b.datum)).map
                  (fun y => Float64.round (vis.height - y))) })
      let merged := merged.map (fun b =>
        { b with y := Attr.ofNumber (vis.yScale.applyDouble (yValue b.datum)) })
      match vis.xValue with
      | none => Except.error { vis with bars := merged ++ exit }
      | some xValue =>
        let merged := merged.map (fun b =>
          { b with x := Attr.ofDefined (vis.xScale.applyDouble (xValue b.datum)) })
        Except.ok { vis with bars := merged }

/-- `updateVis` (barchart.js lines 98-110), rendering in doubles. -/
def Barchart.updateVisDouble (vis : Barchart) : Except Barchart Barchart :=
  let xValue : Record → String := fun d => d.state
  let yValue : Record → ℚ := fun d => d.percent
  Barchart.renderVisDouble
    { vis with
      xValue := some xValue
      yValue := some yValue
      yScale := { vis.yScale with domain := (0, d3.max (vis.data.map yValue)) }
      xScale := vis.xScale.setDomain (vis.data.map xValue) }

/-- A bar after the four attribute calls of `renderVis` in doubles. -/
def Barchart.paintDouble (vis : Barchart) (xValue : Record → String) (yValue : Record → ℚ)
    (b : Bar) : Bar :=
  { datum := b.datum
    fill := b.fill
    width := Attr.num vis.xScale.bandwidthDouble
    height := Attr.ofNumber
      ((vis.yScale.applyDouble (yValue b.datum)).map (fun y => Float64.round (vis.height - y)))
    y := Attr.ofNumber (vis.yScale.applyDouble (yValue b.datum))
    x := Attr.ofDefined (vis.xScale.applyDouble (xValue b.datum)) }

deriving instance DecidableEq for Attr

/-! ## The data join -/

theorem joined_map_datum (group : List Bar) (data : List Record) :
    (Barchart.joined group data).map Bar.datum = data := by
  induction group generalizing data with
  | nil =>
    simp [Barchart.joined, d3.bindIndex, Barchart.appendRect, Function.comp_def]
  | cons g gs ih =>
    cases data with
    | nil => simp [Barchart.joined, d3.bindIndex]
    | cons d ds =>
      have := ih ds
      simp only [Barchart.joined, d3.bindIndex] at this ⊢
      simpa using this

theorem joined_length (group : List Bar) (data : List Record) :
    (Barchart.joined group data).length = data.length := by
  have := congrArg List.length (joined_map_datum group data)
  simpa using this

theorem renderVis_of_accessors (vis : Barchart) (xv : Record → String) (yv : Record → ℚ)
    (hx : vis.xValue = some xv) (hy : vis.yValue = some yv) :
    vis.renderVis
      = Except.ok { vis with bars := (Barchart.joined vis.bars vis.data).map (vis.paint xv yv) } := by
  unfold Barchart.renderVis
  simp only [hx, hy, List.isEmpty_iff, List.map_eq_nil_iff]
  split_ifs with hm
  · rw [List.isEmpty_iff, List.map_eq_nil_iff, List.append_eq_nil, List.map_eq_nil_iff] at hm
    simp [Barchart.joined, hm.1, hm.2]
  · simp [Barchart.joined, Barchart.paint, Function.comp_def]

theorem updateVis_eq (vis : Barchart) :
    vis.updateVis
      = Except.ok { vis.prepared with
          bars := (Barchart.joined vis.bars vis.data).map
            (vis.prepared.paint (fun d => d.state) (fun d => d.percent)) } := by
  have h := renderVis_of_accessors vis.prepared (fun d => d.state) (fun d => d.percent) rfl rfl
  exact h

theorem joined_self (L : List Bar) (data : List Record) (h : L.map Bar.datum = data) :
    Barchart.joined L data = L := by
  induction L generalizing data with
  | nil => subst h; simp [Barchart.joined, d3.bindIndex]
  | cons b bs ih =>
    subst h
    have := ih (bs.map Bar.datum) rfl
    simp only [Barchart.joined, d3.bindIndex] at this ⊢
    simpa using this

/-! ## Frame: what the calls leave alone -/

theorem renderVis_frame (vis : Barchart) :
    ∃ bars, Barchart.settle vis.renderVis = { vis with bars := bars } := by
  unfold Barchart.renderVis
  simp only
  split_ifs
  · exact ⟨_, rfl⟩
  · cases hy : vis.yValue with
    | none => exact ⟨_, rfl⟩
    | some yv =>
      cases hx : vis.xValue with
      | none => exact ⟨_, rfl⟩
      | some xv => exact ⟨_, rfl⟩

theorem updateVis_frame (vis : Barchart) :
    ∃ bars, Barchart.settle vis.updateVis = { vis.prepared with bars := bars } :=
  renderVis_frame vis.prepared

theorem step_frame (vis : Barchart) (c : Call) :
    (vis.step c).config = vis.config ∧ (vis.step c).width = vis.width
      ∧ (vis.step c).height = vis.height ∧ (vis.step c).yScale.range = vis.yScale.range
      ∧ (vis.step c).xScale.r0 = vis.xScale.r0 ∧ (vis.step c).xScale.r1 = vis.xScale.r1
      ∧ (vis.step c).xScale.paddingInner = vis.xScale.paddingInner
      ∧ (vis.step c).xScale.paddingOuter = vis.xScale.paddingOuter
      ∧ (vis.step c).xScale.align = vis.xScale.align := by
  cases c with
  | setData D => simp [Barchart.step, Barchart.setData]
  | updateVis =>
    obtain ⟨bars, h⟩ := updateVis_frame vis
    simp [Barchart.step, h, Barchart.prepared, BandScale.setDomain]
  | renderVis =>
    obtain ⟨bars, h⟩ := renderVis_frame vis
    simp [Barchart.step, h]

theorem run_frame (vis : Barchart) (calls : List Call) :
    (vis.run calls).config = vis.config ∧ (vis.run calls).width = vis.width
      ∧ (vis.run calls).height = vis.height ∧ (vis.run calls).yScale.range = vis.yScale.range
      ∧ (vis.run calls).xScale.r0 = vis.xScale.r0 ∧ (vis.run calls).xScale.r1 = vis.xScale.r1
      ∧ (vis.run calls).xScale.paddingInner = vis.xScale.paddingInner
      ∧ (vis.run calls).xScale.paddingOuter = vis.xScale.paddingOuter
      ∧ (vis.run calls).xScale.align = vis.xScale.align := by
  induction calls generalizing vis with
  | nil => simp [Barchart.run]
  | cons c cs ih =>
    have h1 := step_frame vis c
    have h2 := ih (vis.step c)
    simp only [Barchart.run, List.foldl_cons] at h2 ⊢
    obtain ⟨a1, a2, a3, a4, a5, a6, a7, a8, a9⟩ := h1
    obtain ⟨b1, b2, b3, b4, b5, b6, b7, b8, b9⟩ := h2
    exact ⟨b1.trans a1, b2.trans a2, b3.trans a3, b4.trans a4, b5.trans a5, b6.trans a6,
      b7.trans a7, b8.trans a8, b9.trans a9⟩

theorem constructor_initialised (cfg : RawConfig) (D0 : List Record) :
    (Barchart.constructor cfg D0).Initialised := by
  have hpad : Min.min (1 : ℚ) (1 / 5) = 1 / 5 := min_eq_right (by norm_num)
  exact ⟨rfl, rfl, rfl, rfl, rfl, hpad, rfl, rfl⟩

theorem run_initialised (cfg : RawConfig) (D0 : List Record) (calls : List Call) :
    ((Barchart.constructor cfg D0).run calls).Initialised := by
  have h0 := constructor_initialised cfg D0
  obtain ⟨a1, a2, a3, a4, a5, a6, a7, a8, a9⟩ := run_frame (Barchart.constructor cfg D0) calls
  constructor
  · rw [a1, a2]; exact h0.width_eq
  · rw [a1, a3]; exact h0.height_eq
  · rw [a4, a3]; exact h0.yRange
  · rw [a5]; exact h0.xR0
  · rw [a6, a2]; exact h0.xR1
  · rw [a7]; exact h0.xPaddingInner
  · rw [a8]; exact h0.xPaddingOuter
  · rw [a9]; exact h0.xAlign

/-! ## Bar count, idempotence, configuration -/

/-- C1: for every dataset `D` and every prior instance state (any bars already
drawn), setting the data to `D` and calling `updateVis` returns normally and
leaves exactly one bar per record of `D`, bar `i` bound to record `i`: missing
bars are created, surplus bars removed. -/
theorem updateVis_bar_count (vis : Barchart) (D : List Record) :
    ∃ vis1, (vis.setData D).updateVis = Except.ok vis1
      ∧ vis1.data = D
      ∧ vis1.bars.length = D.length
      ∧ vis1.bars.map Bar.datum = D := by
  refine ⟨_, updateVis_eq (vis.setData D), rfl, ?_, ?_⟩
  · simp [joined_length, Barchart.setData]
  · simp only [List.map_map]
    have h := joined_map_datum (vis.setData D).bars D
    simpa [Function.comp_def, Barchart.paint, Barchart.setData] using h

/-- C5: after `updateVis`, from any prior state and for any dataset, a further
`renderVis` returns normally and leaves the whole instance, hence the number
of bars and every bar's x, y, width, height and fill, as it was. -/
theorem renderVis_idempotent (vis : Barchart) (D : List Record) :
    ∃ vis1, (vis.setData D).updateVis = Except.ok vis1
      ∧ vis1.renderVis = Except.ok vis1 := by
  refine ⟨_, updateVis_eq (vis.setData D), ?_⟩
  rw [renderVis_of_accessors _ (fun d => d.state) (fun d => d.percent) rfl rfl]
  congr 2
  simp only
  have hd : ((Barchart.joined (vis.setData D).bars (vis.setData D).data).map
      ((vis.setData D).prepared.paint (fun d => d.state) (fun d => d.percent))).map Bar.datum
      = (vis.setData D).prepared.data := by
    simp only [List.map_map]
    have h := joined_map_datum (vis.setData D).bars (vis.setData D).data
    simpa [Function.comp_def, Barchart.paint, Barchart.prepared] using h
  rw [joined_self _ _ hd, List.map_map]
  apply List.map_congr_left
  intro b _
  simp [Barchart.paint, Barchart.prepared]

/-- C7, as stated, fails: a supplied `containerWidth` of `0` is not stored;
the constructor stores `1000` in its place. -/
theorem constructor_zero_width_replaced :
    (Barchart.constructor
        { parentElement := "#chart", containerWidth := some 0, containerHeight := some 600,
          margin := none } []).config.containerWidth = 1000
      ∧ (Barchart.constructor
        { parentElement := "#chart", containerWidth := some 0, containerHeight := some 600,
          margin := none } []).config.containerWidth ≠ 0 := by
  simp [Barchart.constructor, Barchart.initVis, orDefault]

/-- C7, amended: construction stores a supplied `containerWidth` or
`containerHeight` unchanged when it is not `0`, and a supplied `margin`
unchanged; it uses `1000` / `600` when the field is missing or `0`, and the
margin `{top 70, right 50, bottom 100, left 50}` only when `margin` is
missing. -/
theorem constructor_config (cfg : RawConfig) (D : List Record) :
    (Barchart.constructor cfg D).config.parentElement = cfg.parentElement
      ∧ (∀ w, cfg.containerWidth = some w → w ≠ 0 →
          (Barchart.constructor cfg D).config.containerWidth = w)
      ∧ (cfg.containerWidth = none ∨ cfg.containerWidth = some 0 →
          (Barchart.constructor cfg D).config.containerWidth = 1000)
      ∧ (∀ h, cfg.containerHeight = some h → h ≠ 0 →
          (Barchart.constructor cfg D).config.containerHeight = h)
      ∧ (cfg.containerHeight = none ∨ cfg.containerHeight = some 0 →
          (Barchart.constructor cfg D).config.containerHeight = 600)
      ∧ (∀ m, cfg.margin = some m → (Barchart.constructor cfg D).config.margin = m)
      ∧ (cfg.margin = none →
          (Barchart.constructor cfg D).config.margin
            = { top := 70, right := 50, bottom := 100, left := 50 }) := by
  refine ⟨rfl, ?_, ?_, ?_, ?_, ?_, ?_⟩
  · intro w hw hw0
    simp [Barchart.constructor, Barchart.initVis, orDefault, hw, hw0]
  · rintro (hw | hw) <;> simp [Barchart.constructor, Barchart.initVis, orDefault, hw]
  · intro h hh hh0
    simp [Barchart.constructor, Barchart.initVis, orDefault, hh, hh0]
  · rintro (hh | hh) <;> simp [Barchart.constructor, Barchart.initVis, orDefault, hh]
  · intro m hm
    simp [Barchart.constructor, Barchart.initVis, hm]
  · intro hm
    simp [Barchart.constructor, Barchart.initVis, hm]

/-- C7 witness: width 800 and a margin supplied, height missing. -/
theorem constructor_config_witness :
    (Barchart.constructor
        { parentElement := "#chart", containerWidth := some 800, containerHeight := none,
          margin := some { top := 1, right := 2, bottom := 3, left := 4 } } []).config.containerWidth
        = 800
      ∧ (Barchart.constructor
        { parentElement := "#chart", containerWidth := some 800, containerHeight := none,
          margin := some { top := 1, right := 2, bottom := 3, left := 4 } } []).config.containerHeight
        = 600
      ∧ (Barchart.constructor
        { parentElement := "#chart", containerWidth := some 800, containerHeight := none,
          margin := some { top := 1, right := 2, bottom := 3, left := 4 } } []).config.margin
        = { top := 1, right := 2, bottom := 3, left := 4 } :=
  ⟨(constructor_config _ []).2.1 800 rfl (by norm_num),
   (constructor_config _ []).2.2.2.2.1 (Or.inl rfl),
   (constructor_config _ []).2.2.2.2.2.1 _ rfl⟩

/-- C8: in every state reached by construction followed by any sequence of
data assignments, `updateVis` calls and `renderVis` calls (returning or
throwing), the inner width is `containerWidth - margin.left - margin.right`,
the inner height is `containerHeight - margin.top - margin.bottom`, and the
configuration is the one stored at construction; for a configuration that
gives only `parentElement` the inner size is 900 by 430. -/
theorem inner_size_invariant (cfg : RawConfig) (D0 : List Record) (calls : List Call) :
    ((Barchart.constructor cfg D0).run calls).width
        = ((Barchart.constructor cfg D0).run calls).config.containerWidth
          - ((Barchart.constructor cfg D0).run calls).config.margin.left
          - ((Barchart.constructor cfg D0).run calls).config.margin.right
      ∧ ((Barchart.constructor cfg D0).run calls).height
        = ((Barchart.constructor cfg D0).run calls).config.containerHeight
          - ((Barchart.constructor cfg D0).run calls).config.margin.top
          - ((Barchart.constructor cfg D0).run calls).config.margin.bottom
      ∧ ((Barchart.constructor cfg D0).run calls).config = (Barchart.constructor cfg D0).config
      ∧ ((Barchart.constructor
            { parentElement := cfg.parentElement, containerWidth := none,
              containerHeight := none, margin := none } D0).run calls).width = 900
      ∧ ((Barchart.constructor
            { parentElement := cfg.parentElement, containerWidth := none,
              containerHeight := none, margin := none } D0).run calls).height = 430 := by
  have hi := run_initialised cfg D0 calls
  refine ⟨hi.width_eq, hi.height_eq, (run_frame _ calls).1, ?_, ?_⟩
  · rw [(run_frame _ calls).2.1]
    simp only [Barchart.constructor, Barchart.initVis, orDefault]
    norm_num
  · rw [(run_frame _ calls).2.2.1]
    simp only [Barchart.constructor, Barchart.initVis, orDefault]
    norm_num

/-! ## Scale domains -/

theorem d3max_foldl (a : ℚ) (vs : List ℚ) :
    ∃ m, vs.foldl
        (fun m value =>
          match m with
          | none => some value
          | some m => if m < value then some value else some m)
        (some a) = some m
      ∧ (m = a ∨ m ∈ vs) ∧ a ≤ m ∧ ∀ v ∈ vs, v ≤ m := by
  induction vs generalizing a with
  | nil => exact ⟨a, rfl, Or.inl rfl, le_refl a, by simp⟩
  | cons v vs ih =>
    simp only [List.foldl_cons]
    by_cases h : a < v
    · obtain ⟨m, hm, hmem, hle, hall⟩ := ih v
      refine ⟨m, by simpa [h] using hm, ?_, le_trans (le_of_lt h) hle, ?_⟩
      · rcases hmem with rfl | hmem
        · exact Or.inr (List.mem_cons_self _ _)
        · exact Or.inr (List.mem_cons_of_mem _ hmem)
      · intro w hw
        rcases List.mem_cons.mp hw with rfl | hw
        · exact hle
        · exact hall w hw
    · obtain ⟨m, hm, hmem, hle, hall⟩ := ih a
      refine ⟨m, by simpa [h] using hm, ?_, hle, ?_⟩
      · rcases hmem with rfl | hmem
        · exact Or.inl rfl
        · exact Or.inr (List.mem_cons_of_mem _ hmem)
      · intro w hw
        rcases List.mem_cons.mp hw with rfl | hw
        · exact le_trans (not_lt.mp h) hle
        · exact hall w hw

theorem d3max_spec (values : List ℚ) (hne : values ≠ []) :
    ∃ m, d3.max values = some m ∧ m ∈ values ∧ ∀ v ∈ values, v ≤ m := by
  cases values with
  | nil => exact absurd rfl hne
  | cons a vs =>
    obtain ⟨m, hm, hmem, hle, hall⟩ := d3max_foldl a vs
    refine ⟨m, ?_, ?_, ?_⟩
    · simpa [d3.max] using hm
    · rcases hmem with rfl | hmem
      · exact List.mem_cons_self _ _
      · exact List.mem_cons_of_mem _ hmem
    · intro w hw
      rcases List.mem_cons.mp hw with rfl | hw
      · exact hle
      · exact hall w hw

theorem ordinalDomain_append (pre : List String) (v : String) :
    d3.ordinalDomain (pre ++ [v])
      = if v ∈ d3.ordinalDomain pre then d3.ordinalDomain pre else d3.ordinalDomain pre ++ [v] := by
  simp [d3.ordinalDomain, List.foldl_append]

theorem mem_ordinalDomain_all (values : List String) :
    ∀ c, c ∈ d3.ordinalDomain values ↔ c ∈ values := by
  induction values using List.reverseRecOn with
  | nil => simp [d3.ordinalDomain]
  | append_singleton pre v ih =>
    intro c
    rw [ordinalDomain_append]
    split_ifs with h
    · rw [ih] at h
      rw [ih]
      simp only [List.mem_append, List.mem_singleton]
      constructor
      · exact Or.inl
      · rintro (hc | rfl)
        · exact hc
        · exact h
    · simp [ih]

theorem mem_ordinalDomain (values : List String) (c : String) :
    c ∈ d3.ordinalDomain values ↔ c ∈ values :=
  mem_ordinalDomain_all values c

theorem ordinalDomain_nodup (values : List String) : (d3.ordinalDomain values).Nodup := by
  induction values using List.reverseRecOn with
  | nil => simp [d3.ordinalDomain]
  | append_singleton pre v ih =>
    rw [ordinalDomain_append]
    split_ifs with h
    · exact ih
    · rw [List.nodup_append]
      refine ⟨ih, List.nodup_singleton v, ?_⟩
      intro a ha hb
      rw [List.mem_singleton] at hb
      subst hb
      exact h ha

theorem ordinalDomain_firstOccurrence (values : List String) :
    (d3.ordinalDomain values).Pairwise
      (fun a b => values.indexOf a < values.indexOf b) := by
  induction values using List.reverseRecOn with
  | nil => simp [d3.ordinalDomain]
  | append_singleton pre v ih =>
    have hkeep : (d3.ordinalDomain pre).Pairwise
        (fun a b => (pre ++ [v]).indexOf a < (pre ++ [v]).indexOf b) := by
      refine List.Pairwise.imp_of_mem ?_ ih
      intro a b ha hb hab
      rw [mem_ordinalDomain] at ha hb
      rwa [List.indexOf_append_of_mem ha, List.indexOf_append_of_mem hb]
    rw [ordinalDomain_append]
    split_ifs with h
    · exact hkeep
    · rw [List.pairwise_append]
      refine ⟨hkeep, List.pairwise_singleton _ _, ?_⟩
      intro a ha b hb
      rw [List.mem_singleton] at hb
      subst hb
      rw [mem_ordinalDomain] at ha h
      rw [List.indexOf_append_of_mem ha, List.indexOf_append_of_not_mem h]
      have := List.indexOf_lt_length.mpr ha
      omega

/-! ## What `updateVis` leaves behind -/

theorem updateVis_spec (vis : Barchart) (D : List Record) :
    ∃ vis1, (vis.setData D).updateVis = Except.ok vis1
      ∧ vis1.height = vis.height ∧ vis1.width = vis.width
      ∧ vis1.yScale = { vis.yScale with domain := (0, d3.max (D.map (fun d => d.percent))) }
      ∧ vis1.xScale = vis.xScale.setDomain (D.map (fun d => d.state))
      ∧ ∀ i (hi : i < D.length), ∃ b, vis1.bars[i]? = some b
          ∧ b.datum = D[i]
          ∧ b.width = Attr.num vis1.xScale.bandwidth
          ∧ b.height = Attr.ofNumber ((vis1.yScale.apply D[i].percent).map (vis1.height - ·))
          ∧ b.y = Attr.ofNumber (vis1.yScale.apply D[i].percent)
          ∧ b.x = Attr.ofDefined (vis1.xScale.apply D[i].state) := by
  refine ⟨_, updateVis_eq (vis.setData D), rfl, rfl, rfl, rfl, ?_⟩
  intro i hi
  have hlen : i < (Barchart.joined (vis.setData D).bars D).length := by
    rw [joined_length]; exact hi
  have hd : ((Barchart.joined (vis.setData D).bars D)[i]).datum = D[i] := by
    have h := joined_map_datum (vis.setData D).bars D
    have h2 : ((Barchart.joined (vis.setData D).bars D).map Bar.datum)[i]? = D[i]? := by rw [h]
    rw [List.getElem?_map, List.getElem?_eq_getElem hlen, List.getElem?_eq_getElem hi] at h2
    simpa using h2
  refine ⟨(vis.setData D).prepared.paint (fun d => d.state) (fun d => d.percent)
      ((Barchart.joined (vis.setData D).bars D)[i]), ?_, ?_, ?_, ?_, ?_, ?_⟩
  · show (List.map _ (Barchart.joined (vis.setData D).bars D))[i]? = _
    rw [List.getElem?_map, List.getElem?_eq_getElem hlen]
    rfl
  · exact hd
  · rfl
  · simp only [Barchart.paint, hd]
  · simp only [Barchart.paint, hd]
  · simp only [Barchart.paint, hd]

/-! ## The band scale -/

theorem band_reverse_false (s : BandScale) (h0 : s.r0 = 0) (hw : 0 < s.r1) :
    s.reverse = false := by
  simp [BandScale.reverse, h0, le_of_lt hw]

theorem band_apply (s : BandScale) (h0 : s.r0 = 0) (hw : 0 < s.r1) (c : String)
    (hc : c ∈ s.domain) :
    s.apply c = some (s.start + s.step * (s.domain.indexOf c : ℚ)) := by
  have hlt : s.domain.indexOf c < s.domain.length := List.indexOf_lt_length.mpr hc
  simp only [BandScale.apply, hc, if_true, BandScale.ordinalRange, band_reverse_false s h0 hw,
    Bool.false_eq_true, if_false, List.length_map, List.length_range, Nat.mod_eq_of_lt hlt]
  rw [List.getElem?_map, List.getElem?_range hlt]
  rfl

theorem band_layout (s : BandScale) (h0 : s.r0 = 0) (hw : 0 < s.r1)
    (hpi : s.paddingInner = 1 / 5) (hpo : s.paddingOuter = 0) (hal : s.align = 1 / 2)
    (hne : s.domain ≠ []) :
    0 < s.step ∧ s.bandwidth = 4 / 5 * s.step ∧ 0 ≤ s.start
      ∧ s.start + s.step * ((s.domain.length : ℚ) - 1) + s.bandwidth ≤ s.r1 := by
  have hn : (1 : ℚ) ≤ (s.domain.length : ℚ) := by
    have : 1 ≤ s.domain.length := Nat.one_le_iff_ne_zero.mpr (by simpa using hne)
    exact_mod_cast this
  have hM : (0 : ℚ) < Max.max 1 ((s.domain.length : ℚ) - 1 / 5 + 0 * 2) :=
    lt_of_lt_of_le one_pos (le_max_left _ _)
  have hK : (s.domain.length : ℚ) - 1 / 5 ≤ Max.max 1 ((s.domain.length : ℚ) - 1 / 5 + 0 * 2) := by
    have := le_max_right (1 : ℚ) ((s.domain.length : ℚ) - 1 / 5 + 0 * 2)
    linarith
  have hext : s.extent = s.r1 := by
    simp [BandScale.extent, band_reverse_false s h0 hw, h0]
  have hstep : s.step = s.r1 / Max.max 1 ((s.domain.length : ℚ) - 1 / 5 + 0 * 2) := by
    simp only [BandScale.step, hext, hpi, hpo]
  have hpos : 0 < s.step := by rw [hstep]; exact div_pos hw hM
  have hKw : s.step * ((s.domain.length : ℚ) - 1 / 5) ≤ s.r1 := by
    rw [hstep, div_mul_eq_mul_div, div_le_iff₀ hM]
    exact mul_le_mul_of_nonneg_left hK (le_of_lt hw)
  have hstart : s.start = (s.r1 - s.step * ((s.domain.length : ℚ) - 1 / 5)) * (1 / 2) := by
    simp only [BandScale.start, hext, hpi, hal, band_reverse_false s h0 hw, h0]
    simp
  have hbw : s.bandwidth = 4 / 5 * s.step := by
    simp only [BandScale.bandwidth, hpi]; ring
  refine ⟨hpos, hbw, ?_, ?_⟩
  · rw [hstart]; linarith
  · rw [hstart, hbw]; linarith

/-! ## The linear scale -/

theorem linear_apply (s : LinearScale) (h m p : ℚ) (hd : s.domain = (0, some m))
    (hr : s.range = (h, 0)) : s.apply p = some (d3.bimap 0 m h 0 p) := by
  simp [LinearScale.apply, hd, hr]

theorem bimap_of_pos (h m p : ℚ) (hm : 0 < m) : d3.bimap 0 m h 0 p = h - h * p / m := by
  have hm0 : m ≠ 0 := ne_of_gt hm
  simp only [d3.bimap, not_lt.mpr (le_of_lt hm), if_false, d3.interpolateNumber, d3.normalize,
    sub_zero, ne_eq, hm0, not_false_eq_true, if_true]
  field_simp
  ring

theorem bimap_height_nonneg (h m p : ℚ) (hh : 0 ≤ h) (hp0 : 0 ≤ p) (hpm : p ≤ m) :
    0 ≤ h - d3.bimap 0 m h 0 p := by
  rcases lt_or_eq_of_le (le_trans hp0 hpm) with hm | hm
  · rw [bimap_of_pos h m p hm]
    have : 0 ≤ h * p / m := div_nonneg (mul_nonneg hh hp0) (le_of_lt hm)
    linarith
  · subst hm
    simp only [d3.bimap, lt_irrefl, if_false, d3.interpolateNumber, d3.normalize, sub_zero,
      ne_eq, not_true_eq_false]
    linarith

/-! ## Domains and bar geometry after `updateVis` -/

/-- C2: for every non-empty dataset `D` and every prior state, `updateVis`
returns normally with the vertical domain `[0, m]`, where `m` is a percent of
`D` that no percent of `D` exceeds, and with the horizontal domain holding
each state of `D` exactly once, ordered by first occurrence in `D`. -/
theorem updateVis_domains (vis : Barchart) (D : List Record) (hne : D ≠ []) :
    ∃ vis1 m, (vis.setData D).updateVis = Except.ok vis1
      ∧ vis1.yScale.domain = (0, some m)
      ∧ m ∈ D.map (fun d => d.percent)
      ∧ (∀ r ∈ D, r.percent ≤ m)
      ∧ vis1.xScale.domain.Nodup
      ∧ (∀ c, c ∈ vis1.xScale.domain ↔ c ∈ D.map (fun d => d.state))
      ∧ vis1.xScale.domain.Pairwise
          (fun a b => (D.map (fun d => d.state)).indexOf a < (D.map (fun d => d.state)).indexOf b) := by
  obtain ⟨vis1, hok, -, -, hy, hx, -⟩ := updateVis_spec vis D
  obtain ⟨m, hm, hmem, hall⟩ := d3max_spec (D.map (fun d => d.percent)) (by simpa using hne)
  refine ⟨vis1, m, hok, ?_, hmem, ?_, ?_, ?_, ?_⟩
  · rw [hy, hm]
  · intro r hr
    exact hall r.percent (List.mem_map_of_mem _ hr)
  · rw [hx]; exact ordinalDomain_nodup _
  · intro c; rw [hx]; exact mem_ordinalDomain _ c
  · rw [hx]; exact ordinalDomain_firstOccurrence _

/-- C2 witness: a dataset with a repeated state. -/
theorem updateVis_domains_witness :
    ∃ vis1 m,
      ((Barchart.constructor
          { parentElement := "#chart", containerWidth := none, containerHeight := none,
            margin := none } []).setData
        [{ state := "A", percent := 10 }, { state := "B", percent := 30 },
         { state := "A", percent := 20 }]).updateVis = Except.ok vis1
      ∧ vis1.yScale.domain = (0, some m)
      ∧ m ∈ ([{ state := "A", percent := 10 }, { state := "B", percent := 30 },
             { state := "A", percent := 20 }] : List Record).map (fun d => d.percent)
      ∧ (∀ r ∈ ([{ state := "A", percent := 10 }, { state := "B", percent := 30 },
             { state := "A", percent := 20 }] : List Record), r.percent ≤ m)
      ∧ vis1.xScale.domain.Nodup
      ∧ (∀ c, c ∈ vis1.xScale.domain ↔
          c ∈ ([{ state := "A", percent := 10 }, { state := "B", percent := 30 },
             { state := "A", percent := 20 }] : List Record).map (fun d => d.state))
      ∧ vis1.xScale.domain.Pairwise
          (fun a b =>
            (([{ state := "A", percent := 10 }, { state := "B", percent := 30 },
               { state := "A", percent := 20 }] : List Record).map (fun d => d.state)).indexOf a
              < (([{ state := "A", percent := 10 }, { state := "B", percent := 30 },
               { state := "A", percent := 20 }] : List Record).map (fun d => d.state)).indexOf b) :=
  updateVis_domains _ _ (by simp)

/-- C9, as stated, fails: with percents `-5` and `10` the vertical domain after
`updateVis` is `[0, 10]` and the first record's percent lies below it. -/
theorem negative_percent_outside_domain :
    (Barchart.settle
        (Barchart.constructor
          { parentElement := "#chart", containerWidth := none, containerHeight := none,
            margin := none }
          [{ state := "A", percent := -5 }, { state := "B", percent := 10 }]).updateVis).yScale.domain
        = (0, some 10)
      ∧ ¬ ((0 : ℚ) ≤ ({ state := "A", percent := -5 } : Record).percent
            ∧ ({ state := "A", percent := -5 } : Record).percent ≤ 10) := by
  constructor
  · rw [updateVis_eq]
    simp only [Barchart.settle, Barchart.prepared, Barchart.constructor, Barchart.initVis,
      d3.max, List.map, List.foldl]
    norm_num
  · norm_num

/-- C9, amended: for every non-empty dataset `D`, after `updateVis` the
vertical domain is `[0, m]` where `m` is the maximum of `D` (a percent of `D`
that no percent of `D` exceeds); every record whose percent is not negative
lies inside the domain, and a record whose percent is negative lies below the
domain's lower end `0`. -/
theorem percent_within_domain (vis : Barchart) (D : List Record) (hne : D ≠ []) :
    ∃ vis1 m, (vis.setData D).updateVis = Except.ok vis1
      ∧ vis1.yScale.domain = (0, some m)
      ∧ m ∈ D.map (fun d => d.percent)
      ∧ (∀ r ∈ D, r.percent ≤ m)
      ∧ (∀ r ∈ D, 0 ≤ r.percent →
          vis1.yScale.domain.1 ≤ r.percent
            ∧ ∃ hi, vis1.yScale.domain.2 = some hi ∧ r.percent ≤ hi)
      ∧ (∀ r ∈ D, r.percent < 0 → r.percent < vis1.yScale.domain.1) := by
  obtain ⟨vis1, hok, -, -, hy, -, -⟩ := updateVis_spec vis D
  obtain ⟨m, hm, hmem, hall⟩ := d3max_spec (D.map (fun d => d.percent)) (by simpa using hne)
  have hdom : vis1.yScale.domain = (0, some m) := by rw [hy, hm]
  refine ⟨vis1, m, hok, hdom, hmem, ?_, ?_, ?_⟩
  · intro r hr
    exact hall r.percent (List.mem_map_of_mem _ hr)
  · intro r hr h0
    rw [hdom]
    exact ⟨h0, m, rfl, hall r.percent (List.mem_map_of_mem _ hr)⟩
  · intro r _ hneg
    rw [hdom]
    exact hneg

/-- C9 witness: the dataset with percents `-5` and `10`. -/
theorem percent_within_domain_witness :
    ∃ vis1 m,
      ((Barchart.constructor
          { parentElement := "#chart", containerWidth := none, containerHeight := none,
            margin := none } []).setData
        [{ state := "A", percent := -5 }, { state := "B", percent := 10 }]).updateVis
        = Except.ok vis1
      ∧ vis1.yScale.domain = (0, some m)
      ∧ m ∈ ([{ state := "A", percent := -5 }, { state := "B", percent := 10 }]
              : List Record).map (fun d => d.percent)
      ∧ (∀ r ∈ ([{ state := "A", percent := -5 }, { state := "B", percent := 10 }] : List Record),
          r.percent ≤ m)
      ∧ (∀ r ∈ ([{ state := "A", percent := -5 }, { state := "B", percent := 10 }] : List Record),
          0 ≤ r.percent →
            vis1.yScale.domain.1 ≤ r.percent
              ∧ ∃ hi, vis1.yScale.domain.2 = some hi ∧ r.percent ≤ hi)
      ∧ (∀ r ∈ ([{ state := "A", percent := -5 }, { state := "B", percent := 10 }] : List Record),
          r.percent < 0 → r.percent < vis1.yScale.domain.1) :=
  percent_within_domain _ _ (by simp)

/-- C3: in every state reached from construction with positive inner height,
for every dataset `D` and every position `i` in it, `updateVis` returns
normally and bar `i`, bound to record `i`, has `y = yScale(percent)` and
`height = innerHeight - yScale(percent)`; the height is not negative when the
record's percent lies between `0` and the maximum of `D` (a maximum of `0`
included). -/
theorem bar_height (cfg : RawConfig) (D0 : List Record) (calls : List Call)
    (D : List Record) (i : ℕ) (hi : i < D.length)
    (hpos : 0 < ((Barchart.constructor cfg D0).run calls).height) :
    ∃ vis1 b yv,
      (((Barchart.constructor cfg D0).run calls).setData D).updateVis = Except.ok vis1
      ∧ vis1.height = ((Barchart.constructor cfg D0).run calls).height
      ∧ vis1.bars[i]? = some b
      ∧ b.datum = D[i]
      ∧ vis1.yScale.apply D[i].percent = some yv
      ∧ b.y = Attr.num yv
      ∧ b.height = Attr.num (vis1.height - yv)
      ∧ (∀ m, d3.max (D.map (fun d => d.percent)) = some m →
          0 ≤ D[i].percent → D[i].percent ≤ m → 0 ≤ vis1.height - yv) := by
  have hinit := run_initialised cfg D0 calls
  obtain ⟨vis1, hok, hh, -, hy, -, hbars⟩ :=
    updateVis_spec ((Barchart.constructor cfg D0).run calls) D
  obtain ⟨b, hb, hdat, -, hbh, hby, -⟩ := hbars i hi
  have hne : D.map (fun d => d.percent) ≠ [] := by
    intro h
    have : D.length = 0 := by simpa using congrArg List.length h
    omega
  obtain ⟨m, hm, -, -⟩ := d3max_spec _ hne
  have hdom : vis1.yScale.domain = (0, some m) := by rw [hy, hm]
  have hrange : vis1.yScale.range = (vis1.height, 0) := by rw [hy, hh]; exact hinit.yRange
  have happ := linear_apply vis1.yScale vis1.height m D[i].percent hdom hrange
  refine ⟨vis1, b, _, hok, hh, hb, hdat, happ, ?_, ?_, ?_⟩
  · rw [hby, happ]; rfl
  · rw [hbh, happ]; rfl
  · intro m2 hm2 h0 hle
    rw [hm] at hm2
    cases hm2
    exact bimap_height_nonneg _ _ _ (by rw [hh]; exact le_of_lt hpos) h0 hle

/-- C3 witness: default configuration, three records, the middle bar. -/
theorem bar_height_witness :
    ∃ vis1 b yv,
      (((Barchart.constructor
          { parentElement := "#chart", containerWidth := none, containerHeight := none,
            margin := none } []).run []).setData
        [{ state := "A", percent := 10 }, { state := "B", percent := 30 },
         { state := "C", percent := 20 }]).updateVis = Except.ok vis1
      ∧ vis1.height = ((Barchart.constructor
          { parentElement := "#chart", containerWidth := none, containerHeight := none,
            margin := none } []).run []).height
      ∧ vis1.bars[1]? = some b
      ∧ b.datum = ([{ state := "A", percent := 10 }, { state := "B", percent := 30 },
         { state := "C", percent := 20 }] : List Record)[1]
      ∧ vis1.yScale.apply ([{ state := "A", percent := 10 }, { state := "B", percent := 30 },
         { state := "C", percent := 20 }] : List Record)[1].percent = some yv
      ∧ b.y = Attr.num yv
      ∧ b.height = Attr.num (vis1.height - yv)
      ∧ (∀ m, d3.max (([{ state := "A", percent := 10 }, { state := "B", percent := 30 },
         { state := "C", percent := 20 }] : List Record).map (fun d => d.percent)) = some m →
          0 ≤ ([{ state := "A", percent := 10 }, { state := "B", percent := 30 },
         { state := "C", percent := 20 }] : List Record)[1].percent →
          ([{ state := "A", percent := 10 }, { state := "B", percent := 30 },
         { state := "C", percent := 20 }] : List Record)[1].percent ≤ m →
          0 ≤ vis1.height - yv) :=
  bar_height _ [] [] _ 1 (by simp)
    (by simp only [Barchart.run, List.foldl, Barchart.constructor, Barchart.initVis, orDefault]
        norm_num)

theorem band_x_bounds (s : BandScale) (h0 : s.r0 = 0) (hw : 0 < s.r1)
    (hpi : s.paddingInner = 1 / 5) (hpo : s.paddingOuter = 0) (hal : s.align = 1 / 2)
    (c : String) (hc : c ∈ s.domain) :
    ∃ x, s.apply c = some x ∧ x = s.start + s.step * (s.domain.indexOf c : ℚ)
      ∧ 0 ≤ x ∧ x + s.bandwidth ≤ s.r1 := by
  have hne : s.domain ≠ [] := List.ne_nil_of_mem hc
  obtain ⟨hstep, -, hstart, hend⟩ := band_layout s h0 hw hpi hpo hal hne
  have hlt : s.domain.indexOf c < s.domain.length := List.indexOf_lt_length.mpr hc
  have hidx : (s.domain.indexOf c : ℚ) ≤ (s.domain.length : ℚ) - 1 := by
    have : s.domain.indexOf c + 1 ≤ s.domain.length := hlt
    have h2 : ((s.domain.indexOf c + 1 : ℕ) : ℚ) ≤ (s.domain.length : ℚ) := by exact_mod_cast this
    push_cast at h2
    linarith
  have hidx0 : (0 : ℚ) ≤ (s.domain.indexOf c : ℚ) := Nat.cast_nonneg _
  refine ⟨_, band_apply s h0 hw c hc, rfl, ?_, ?_⟩
  · have := mul_nonneg (le_of_lt hstep) hidx0
    linarith
  · have := mul_le_mul_of_nonneg_left hidx (le_of_lt hstep)
    linarith

/-- Exact arithmetic: in every state reached from construction with positive
inner width, for every dataset `D` and positions `i`, `j` in it, after
`updateVis` bars `i` and `j` have numeric x-positions and one common width;
the x-positions differ when the two records' states differ and agree when the
states agree. -/
theorem bar_x_injective_exact (cfg : RawConfig) (D0 : List Record) (calls : List Call)
    (D : List Record) (i j : ℕ) (hi : i < D.length) (hj : j < D.length)
    (hw : 0 < ((Barchart.constructor cfg D0).run calls).width) :
    ∃ vis1 bi bj xi xj w,
      (((Barchart.constructor cfg D0).run calls).setData D).updateVis = Except.ok vis1
      ∧ vis1.bars[i]? = some bi ∧ vis1.bars[j]? = some bj
      ∧ bi.datum = D[i] ∧ bj.datum = D[j]
      ∧ bi.x = Attr.num xi ∧ bj.x = Attr.num xj
      ∧ bi.width = Attr.num w ∧ bj.width = Attr.num w
      ∧ (D[i].state ≠ D[j].state → xi ≠ xj)
      ∧ (D[i].state = D[j].state → xi = xj) := by
  have hinit := run_initialised cfg D0 calls
  obtain ⟨vis1, hok, -, -, -, hx, hbars⟩ :=
    updateVis_spec ((Barchart.constructor cfg D0).run calls) D
  obtain ⟨bi, hbi, hdi, hwi, -, -, hxi⟩ := hbars i hi
  obtain ⟨bj, hbj, hdj, hwj, -, -, hxj⟩ := hbars j hj
  have h0 : vis1.xScale.r0 = 0 := by rw [hx]; exact hinit.xR0
  have h1 : 0 < vis1.xScale.r1 := by
    rw [hx]; show 0 < ((Barchart.constructor cfg D0).run calls).xScale.r1
    rw [hinit.xR1]; exact hw
  have hpi : vis1.xScale.paddingInner = 1 / 5 := by rw [hx]; exact hinit.xPaddingInner
  have hpo : vis1.xScale.paddingOuter = 0 := by rw [hx]; exact hinit.xPaddingOuter
  have hal : vis1.xScale.align = 1 / 2 := by rw [hx]; exact hinit.xAlign
  have hci : D[i].state ∈ vis1.xScale.domain := by
    rw [hx]
    exact (mem_ordinalDomain _ _).mpr
      (List.mem_map_of_mem (fun d => d.state) (List.getElem_mem hi))
  have hcj : D[j].state ∈ vis1.xScale.domain := by
    rw [hx]
    exact (mem_ordinalDomain _ _).mpr
      (List.mem_map_of_mem (fun d => d.state) (List.getElem_mem hj))
  obtain ⟨xi, hai, hxi_eq, -, -⟩ := band_x_bounds _ h0 h1 hpi hpo hal _ hci
  obtain ⟨xj, haj, hxj_eq, -, -⟩ := band_x_bounds _ h0 h1 hpi hpo hal _ hcj
  obtain ⟨hstep, -, -, -⟩ :=
    band_layout _ h0 h1 hpi hpo hal (List.ne_nil_of_mem hci)
  refine ⟨vis1, bi, bj, xi, xj, vis1.xScale.bandwidth, hok, hbi, hbj, hdi, hdj,
    ?_, ?_, hwi, hwj, ?_, ?_⟩
  · rw [hxi, hai]; rfl
  · rw [hxj, haj]; rfl
  · intro hne heq
    rw [hxi_eq, hxj_eq] at heq
    have h2 : vis1.xScale.step * (vis1.xScale.domain.indexOf D[i].state : ℚ)
        = vis1.xScale.step * (vis1.xScale.domain.indexOf D[j].state : ℚ) := by linarith
    have h3 := mul_left_cancel₀ (ne_of_gt hstep) h2
    have h4 : vis1.xScale.domain.indexOf D[i].state = vis1.xScale.domain.indexOf D[j].state := by
      exact_mod_cast h3
    exact hne ((List.indexOf_inj hci hcj).mp h4)
  · intro heq
    rw [heq] at hai
    rw [hai] at haj
    exact Option.some.inj haj

/-- Exact arithmetic: in every state reached from construction with positive
inner width, for every non-empty dataset `D`, after `updateVis` the band step
is positive,
the band width is `0.8` of the step (so the gap between neighbouring bands is
`0.2` of the step), consecutive categories of the domain are exactly one step
apart, and every bar has the band width and lies inside the inner area:
`0 ≤ x` and `x + width ≤ innerWidth`. -/
theorem bands_inside_inner_width_exact (cfg : RawConfig) (D0 : List Record) (calls : List Call)
    (D : List Record) (hne : D ≠ [])
    (hw : 0 < ((Barchart.constructor cfg D0).run calls).width) :
    ∃ vis1,
      (((Barchart.constructor cfg D0).run calls).setData D).updateVis = Except.ok vis1
      ∧ vis1.width = ((Barchart.constructor cfg D0).run calls).width
      ∧ 0 < vis1.xScale.step
      ∧ vis1.xScale.bandwidth = 4 / 5 * vis1.xScale.step
      ∧ vis1.xScale.step - vis1.xScale.bandwidth = 1 / 5 * vis1.xScale.step
      ∧ (∀ k (hk : k + 1 < vis1.xScale.domain.length), ∃ x0 x1,
          vis1.xScale.apply (vis1.xScale.domain[k]) = some x0
          ∧ vis1.xScale.apply (vis1.xScale.domain[k + 1]) = some x1
          ∧ x1 = x0 + vis1.xScale.step)
      ∧ (∀ i (hi : i < D.length), ∃ b x,
          vis1.bars[i]? = some b ∧ b.datum = D[i]
          ∧ b.x = Attr.num x ∧ b.width = Attr.num vis1.xScale.bandwidth
          ∧ 0 ≤ x ∧ x + vis1.xScale.bandwidth ≤ vis1.width) := by
  have hinit := run_initialised cfg D0 calls
  obtain ⟨vis1, hok, -, hwd, -, hx, hbars⟩ :=
    updateVis_spec ((Barchart.constructor cfg D0).run calls) D
  have h0 : vis1.xScale.r0 = 0 := by rw [hx]; exact hinit.xR0
  have hr1 : vis1.xScale.r1 = vis1.width := by rw [hx, hwd]; exact hinit.xR1
  have h1 : 0 < vis1.xScale.r1 := by rw [hr1, hwd]; exact hw
  have hpi : vis1.xScale.paddingInner = 1 / 5 := by rw [hx]; exact hinit.xPaddingInner
  have hpo : vis1.xScale.paddingOuter = 0 := by rw [hx]; exact hinit.xPaddingOuter
  have hal : vis1.xScale.align = 1 / 2 := by rw [hx]; exact hinit.xAlign
  have hnd : vis1.xScale.domain.Nodup := by rw [hx]; exact ordinalDomain_nodup _
  have hdne : vis1.xScale.domain ≠ [] := by
    obtain ⟨r, hr⟩ := List.exists_mem_of_ne_nil D hne
    have : r.state ∈ vis1.xScale.domain := by
      rw [hx]
      exact (mem_ordinalDomain _ _).mpr (List.mem_map_of_mem (fun d => d.state) hr)
    exact List.ne_nil_of_mem this
  obtain ⟨hstep, hbw, -, -⟩ := band_layout _ h0 h1 hpi hpo hal hdne
  refine ⟨vis1, hok, hwd, hstep, hbw, by rw [hbw]; ring, ?_, ?_⟩
  · intro k hk
    have hk0 : k < vis1.xScale.domain.length := by omega
    have ha0 := band_apply _ h0 h1 _ (List.getElem_mem hk0)
    have ha1 := band_apply _ h0 h1 _ (List.getElem_mem hk)
    rw [List.indexOf_getElem hnd k hk0] at ha0
    rw [List.indexOf_getElem hnd (k + 1) hk] at ha1
    refine ⟨_, _, ha0, ha1, ?_⟩
    push_cast
    ring
  · intro i hi
    obtain ⟨b, hb, hd, hbwd, -, -, hbx⟩ := hbars i hi
    have hc : D[i].state ∈ vis1.xScale.domain := by
      rw [hx]
      exact (mem_ordinalDomain _ _).mpr
        (List.mem_map_of_mem (fun d => d.state) (List.getElem_mem hi))
    obtain ⟨x, hax, -, hx0, hx1⟩ := band_x_bounds _ h0 h1 hpi hpo hal _ hc
    refine ⟨b, x, hb, hd, ?_, hbwd, hx0, ?_⟩
    · rw [hbx, hax]; rfl
    · rw [← hr1]; exact hx1

/-- C6: bar heights are proportional to percent over maximum.  In every state
reached from construction, for every dataset `D` whose maximum percent `m` is
positive and every position `i`, after `updateVis` bar `i` has height
`innerHeight * percent / m`, the full inner height when the percent is `m`.
For `D = [A:10, B:30, C:20]`, container 1000 by 600 and default margins, the
inner size is 900 by 430, the vertical domain is `[0, 30]`, there are three
bars of one width (`1800/7`), and the heights are `430/3`, `430` and `860/3`. -/
theorem bar_height_proportional :
    (∀ (cfg : RawConfig) (D0 : List Record) (calls : List Call) (D : List Record) (m : ℚ)
        (i : ℕ) (hi : i < D.length),
        d3.max (D.map (fun d => d.percent)) = some m → 0 < m →
        ∃ vis1 b,
          (((Barchart.constructor cfg D0).run calls).setData D).updateVis = Except.ok vis1
          ∧ vis1.height = ((Barchart.constructor cfg D0).run calls).height
          ∧ vis1.bars[i]? = some b ∧ b.datum = D[i]
          ∧ b.height = Attr.num (vis1.height * D[i].percent / m)
          ∧ (D[i].percent = m → b.height = Attr.num vis1.height))
    ∧ ∃ vis1,
        (Barchart.constructor
          { parentElement := "#chart", containerWidth := some 1000, containerHeight := some 600,
            margin := none }
          [{ state := "A", percent := 10 }, { state := "B", percent := 30 },
           { state := "C", percent := 20 }]).updateVis = Except.ok vis1
        ∧ vis1.width = 900 ∧ vis1.height = 430
        ∧ vis1.yScale.domain = (0, some 30)
        ∧ vis1.bars.length = 3
        ∧ vis1.bars.map (fun b => b.datum.state) = ["A", "B", "C"]
        ∧ vis1.bars.map (fun b => b.width)
            = [Attr.num (1800 / 7), Attr.num (1800 / 7), Attr.num (1800 / 7)]
        ∧ vis1.bars.map (fun b => b.height)
            = [Attr.num (430 / 3), Attr.num 430, Attr.num (860 / 3)] := by
  constructor
  · intro cfg D0 calls D m i hi hmax hm
    have hinit := run_initialised cfg D0 calls
    obtain ⟨vis1, hok, hh, -, hy, -, hbars⟩ :=
      updateVis_spec ((Barchart.constructor cfg D0).run calls) D
    obtain ⟨b, hb, hdat, -, hbh, -, -⟩ := hbars i hi
    have hdom : vis1.yScale.domain = (0, some m) := by rw [hy, hmax]
    have hrange : vis1.yScale.range = (vis1.height, 0) := by rw [hy, hh]; exact hinit.yRange
    have happ := linear_apply vis1.yScale vis1.height m D[i].percent hdom hrange
    have hheight : b.height = Attr.num (vis1.height * D[i].percent / m) := by
      rw [hbh, happ, bimap_of_pos _ _ _ hm]
      simp [Attr.ofNumber]
    refine ⟨vis1, b, hok, hh, hb, hdat, hheight, ?_⟩
    intro hpm
    rw [hheight, hpm, mul_div_assoc, div_self (ne_of_gt hm), mul_one]
  · refine ⟨_, updateVis_eq _, ?_, ?_, ?_, ?_, ?_, ?_, ?_⟩
    · simp only [Barchart.prepared, Barchart.constructor, Barchart.initVis, orDefault]
      norm_num
    · simp only [Barchart.prepared, Barchart.constructor, Barchart.initVis, orDefault]
      norm_num
    · simp only [Barchart.prepared, Barchart.constructor, Barchart.initVis, d3.max, List.map,
        List.foldl]
      norm_num
    · simp [Barchart.joined, d3.bindIndex, Barchart.constructor, Barchart.initVis]
    · simp [Barchart.joined, d3.bindIndex, Barchart.constructor, Barchart.initVis,
        Barchart.paint, Barchart.appendRect]
    · simp [Barchart.joined, d3.bindIndex, Barchart.constructor, Barchart.initVis,
        Barchart.paint, Barchart.appendRect, Barchart.prepared, BandScale.bandwidth,
        BandScale.step, BandScale.extent, BandScale.reverse, BandScale.setDomain,
        BandScale.setPaddingInner, d3.ordinalDomain, d3.scaleBand, orDefault]
      norm_num
    · simp [Barchart.joined, d3.bindIndex, Barchart.constructor, Barchart.initVis,
        Barchart.paint, Barchart.appendRect, Barchart.prepared, LinearScale.apply, d3.max,
        d3.bimap, d3.interpolateNumber, d3.normalize, d3.scaleLinear, orDefault, Attr.ofNumber]
      norm_num

/-- C6 witness: default configuration, `[A:10, B:30, C:20]`, maximum 30, the
bar of `B`. -/
theorem bar_height_proportional_witness :
    ∃ vis1 b,
      (((Barchart.constructor
          { parentElement := "#chart", containerWidth := none, containerHeight := none,
            margin := none } []).run []).setData
        [{ state := "A", percent := 10 }, { state := "B", percent := 30 },
         { state := "C", percent := 20 }]).updateVis = Except.ok vis1
      ∧ vis1.height = ((Barchart.constructor
          { parentElement := "#chart", containerWidth := none, containerHeight := none,
            margin := none } []).run []).height
      ∧ vis1.bars[1]? = some b
      ∧ b.datum = ([{ state := "A", percent := 10 }, { state := "B", percent := 30 },
         { state := "C", percent := 20 }] : List Record)[1]
      ∧ b.height = Attr.num (vis1.height * ([{ state := "A", percent := 10 },
         { state := "B", percent := 30 }, { state := "C", percent := 20 }] : List Record)[1].percent
          / 30)
      ∧ (([{ state := "A", percent := 10 }, { state := "B", percent := 30 },
         { state := "C", percent := 20 }] : List Record)[1].percent = 30 →
          b.height = Attr.num vis1.height) :=
  bar_height_proportional.1 _ [] [] _ 30 1 (by simp)
    (by simp only [d3.max, List.map, List.foldl]
        norm_num)
    (by norm_num)

/-! ## Rendering in doubles -/

/-- Known doubles reproduced by `Float64.round`: the literal `0.2`, the sum
`0.1 + 0.2 = 0.30000000000000004`, `2 ^ 53 + 1` rounding to `2 ^ 53`, and
halves and three-halves of the least subnormal `2 ^ (-1074)` rounding to even. -/
theorem float64_round_examples :
    Float64.round (1 / 5) = 3602879701896397 / 18014398509481984
      ∧ Float64.round (Float64.round (1 / 10) + Float64.round (1 / 5))
          = 1351079888211149 / 4503599627370496
      ∧ Float64.round (2 ^ 53 + 1) = 2 ^ 53
      ∧ Float64.round (1 / 2 ^ 1075) = 0
      ∧ Float64.round (3 / 2 ^ 1075) = 1 / 2 ^ 1073
      ∧ Float64.round (-(7 / 4)) = -(7 / 4) := by
  decide!

theorem renderVisDouble_of_accessors (vis : Barchart) (xv : Record → String)
    (yv : Record → ℚ) (hx : vis.xValue = some xv) (hy : vis.yValue = some yv) :
    vis.renderVisDouble
      = Except.ok
          { vis with bars := (Barchart.joined vis.bars vis.data).map (vis.paintDouble xv yv) } := by
  unfold Barchart.renderVisDouble
  simp only [hx, hy, List.isEmpty_iff, List.map_eq_nil_iff]
  split_ifs with hm
  · rw [List.isEmpty_iff, List.map_eq_nil_iff, List.append_eq_nil, List.map_eq_nil_iff] at hm
    simp [Barchart.joined, hm.1, hm.2]
  · simp [Barchart.joined, Barchart.paintDouble, Function.comp_def]

theorem updateVisDouble_spec (vis : Barchart) (D : List Record) :
    ∃ vis1, (vis.setData D).updateVisDouble = Except.ok vis1
      ∧ vis1.width = vis.width
      ∧ vis1.xScale = vis.xScale.setDomain (D.map (fun d => d.state))
      ∧ ∀ i (hi : i < D.length), ∃ b, vis1.bars[i]? = some b
          ∧ b.datum = D[i]
          ∧ b.width = Attr.num vis1.xScale.bandwidthDouble
          ∧ b.x = Attr.ofDefined (vis1.xScale.applyDouble D[i].state) := by
  have hok : (vis.setData D).updateVisDouble = _ :=
    renderVisDouble_of_accessors (vis.setData D).prepared
      (fun d => d.state) (fun d => d.percent) rfl rfl
  refine ⟨_, hok, rfl, rfl, ?_⟩
  intro i hi
  have hlen : i < (Barchart.joined (vis.setData D).bars D).length := by
    rw [joined_length]; exact hi
  have hd : ((Barchart.joined (vis.setData D).bars D)[i]).datum = D[i] := by
    have h := joined_map_datum (vis.setData D).bars D
    have h2 : ((Barchart.joined (vis.setData D).bars D).map Bar.datum)[i]? = D[i]? := by rw [h]
    rw [List.getElem?_map, List.getElem?_eq_getElem hlen, List.getElem?_eq_getElem hi] at h2
    simpa using h2
  refine ⟨(vis.setData D).prepared.paintDouble (fun d => d.state) (fun d => d.percent)
      ((Barchart.joined (vis.setData D).bars D)[i]), ?_, ?_, ?_, ?_⟩
  · show (List.map _ (Barchart.joined (vis.setData D).bars D))[i]? = _
    rw [List.getElem?_map, List.getElem?_eq_getElem hlen]
    rfl
  · exact hd
  · rfl
  · simp only [Barchart.paintDouble, hd]

/-- C4, as stated, fails on the program's arithmetic: with inner width
`2 ^ (-1074)` (the least positive double; container width `2 ^ (-1074)`, all
margins `0`) and states `A`, `B`, `C`, `updateVis` in doubles returns normally,
the inner width is positive, the band step rounds to `0`, and all three bars
get x-position `0`. -/
theorem step_underflow_merges_bars :
    (Barchart.constructorDouble
        { parentElement := "#chart", containerWidth := some (1 / 2 ^ 1074),
          containerHeight := none,
          margin := some { top := 0, right := 0, bottom := 0, left := 0 } }
        [{ state := "A", percent := 10 }, { state := "B", percent := 30 },
         { state := "C", percent := 20 }]).updateVisDouble.isOk = true
      ∧ 0 < (Barchart.settle (Barchart.constructorDouble
        { parentElement := "#chart", containerWidth := some (1 / 2 ^ 1074),
          containerHeight := none,
          margin := some { top := 0, right := 0, bottom := 0, left := 0 } }
        [{ state := "A", percent := 10 }, { state := "B", percent := 30 },
         { state := "C", percent := 20 }]).updateVisDouble).width
      ∧ (Barchart.settle (Barchart.constructorDouble
        { parentElement := "#chart", containerWidth := some (1 / 2 ^ 1074),
          containerHeight := none,
          margin := some { top := 0, right := 0, bottom := 0, left := 0 } }
        [{ state := "A", percent := 10 }, { state := "B", percent := 30 },
         { state := "C", percent := 20 }]).updateVisDouble).xScale.stepDouble = 0
      ∧ (Barchart.settle (Barchart.constructorDouble
        { parentElement := "#chart", containerWidth := some (1 / 2 ^ 1074),
          containerHeight := none,
          margin := some { top := 0, right := 0, bottom := 0, left := 0 } }
        [{ state := "A", percent := 10 }, { state := "B", percent := 30 },
         { state := "C", percent := 20 }]).updateVisDouble).bars.map
          (fun b => (b.datum.state, b.x))
        = [("A", Attr.num 0), ("B", Attr.num 0), ("C", Attr.num 0)] := by
  decide!

/-- C4, amended: for every dataset `D` and positions `i`, `j` in it, after
`updateVis` bars `i` and `j` have the same width, and the same x-position
when the two records' states agree, also in doubles and from any prior state;
in exact arithmetic, in every state reached from construction with positive
inner width, the x-positions are numbers that differ when the states
differ. -/
theorem bar_x_positions (cfg : RawConfig) (D0 : List Record) (calls : List Call)
    (vis : Barchart) (D : List Record) (i j : ℕ) (hi : i < D.length) (hj : j < D.length)
    (hw : 0 < ((Barchart.constructor cfg D0).run calls).width) :
    (∃ vis1 bi bj xi xj w,
      (((Barchart.constructor cfg D0).run calls).setData D).updateVis = Except.ok vis1
      ∧ vis1.bars[i]? = some bi ∧ vis1.bars[j]? = some bj
      ∧ bi.datum = D[i] ∧ bj.datum = D[j]
      ∧ bi.x = Attr.num xi ∧ bj.x = Attr.num xj
      ∧ bi.width = Attr.num w ∧ bj.width = Attr.num w
      ∧ (D[i].state ≠ D[j].state → xi ≠ xj)
      ∧ (D[i].state = D[j].state → xi = xj))
    ∧ (∃ vis1 bi bj,
      (vis.setData D).updateVisDouble = Except.ok vis1
      ∧ vis1.bars[i]? = some bi ∧ vis1.bars[j]? = some bj
      ∧ bi.datum = D[i] ∧ bj.datum = D[j]
      ∧ bi.width = bj.width
      ∧ (D[i].state = D[j].state → bi.x = bj.x)) := by
  refine ⟨bar_x_injective_exact cfg D0 calls D i j hi hj hw, ?_⟩
  obtain ⟨vis1, hok, -, -, hbars⟩ := updateVisDouble_spec vis D
  obtain ⟨bi, hbi, hdi, hwi, hxi⟩ := hbars i hi
  obtain ⟨bj, hbj, hdj, hwj, hxj⟩ := hbars j hj
  refine ⟨vis1, bi, bj, hok, hbi, hbj, hdi, hdj, by rw [hwi, hwj], ?_⟩
  intro heq
  rw [hxi, hxj, heq]

/-- C4 witness: default configuration, records `A`, `B`, `A`; bars 0 and 2. -/
theorem bar_x_positions_witness :
    (∃ vis1 bi bj xi xj w,
      (((Barchart.constructor
          { parentElement := "#chart", containerWidth := none, containerHeight := none,
            margin := none } []).run []).setData
        [{ state := "A", percent := 10 }, { state := "B", percent := 30 },
         { state := "A", percent := 20 }]).updateVis = Except.ok vis1
      ∧ vis1.bars[0]? = some bi ∧ vis1.bars[2]? = some bj
      ∧ bi.datum = ([{ state := "A", percent := 10 }, { state := "B", percent := 30 },
         { state := "A", percent := 20 }] : List Record)[0]
      ∧ bj.datum = ([{ state := "A", percent := 10 }, { state := "B", percent := 30 },
         { state := "A", percent := 20 }] : List Record)[2]
      ∧ bi.x = Attr.num xi ∧ bj.x = Attr.num xj
      ∧ bi.width = Attr.num w ∧ bj.width = Attr.num w
      ∧ (([{ state := "A", percent := 10 }, { state := "B", percent := 30 },
         { state := "A", percent := 20 }] : List Record)[0].state
          ≠ ([{ state := "A", percent := 10 }, { state := "B", percent := 30 },
         { state := "A", percent := 20 }] : List Record)[2].state → xi ≠ xj)
      ∧ (([{ state := "A", percent := 10 }, { state := "B", percent := 30 },
         { state := "A", percent := 20 }] : List Record)[0].state
          = ([{ state := "A", percent := 10 }, { state := "B", percent := 30 },
         { state := "A", percent := 20 }] : List Record)[2].state → xi = xj))
    ∧ (∃ vis1 bi bj,
      ((Barchart.constructorDouble
          { parentElement := "#chart", containerWidth := none, containerHeight := none,
            margin := none } []).setData
        [{ state := "A", percent := 10 }, { state := "B", percent := 30 },
         { state := "A", percent := 20 }]).updateVisDouble = Except.ok vis1
      ∧ vis1.bars[0]? = some bi ∧ vis1.bars[2]? = some bj
      ∧ bi.datum = ([{ state := "A", percent := 10 }, { state := "B", percent := 30 },
         { state := "A", percent := 20 }] : List Record)[0]
      ∧ bj.datum = ([{ state := "A", percent := 10 }, { state := "B", percent := 30 },
         { state := "A", percent := 20 }] : List Record)[2]
      ∧ bi.width = bj.width
      ∧ (([{ state := "A", percent := 10 }, { state := "B", percent := 30 },
         { state := "A", percent := 20 }] : List Record)[0].state
          = ([{ state := "A", percent := 10 }, { state := "B", percent := 30 },
         { state := "A", percent := 20 }] : List Record)[2].state → bi.x = bj.x)) :=
  bar_x_positions _ [] [] _ _ 0 2 (by simp) (by simp)
    (by simp only [Barchart.run, List.foldl, Barchart.constructor, Barchart.initVis, orDefault]
        norm_num)

/-- C10, as stated, fails on the program's arithmetic at the default inner
width 900.  With four states the last bar ends past the inner width:
`x + width` is `900 + 2 ^ (-43)`.  With fourteen states the first bar starts
left of the inner area, at `x = -(2 ^ (-44))`. -/
theorem rounded_bands_leave_inner_area :
    (Barchart.constructorDouble
        { parentElement := "#chart", containerWidth := none, containerHeight := none,
          margin := none }
        [{ state := "A", percent := 10 }, { state := "B", percent := 30 },
         { state := "C", percent := 20 }, { state := "D", percent := 5 }]).updateVisDouble.isOk
        = true
      ∧ (Barchart.settle (Barchart.constructorDouble
        { parentElement := "#chart", containerWidth := none, containerHeight := none,
          margin := none }
        [{ state := "A", percent := 10 }, { state := "B", percent := 30 },
         { state := "C", percent := 20 }, { state := "D", percent := 5 }]).updateVisDouble).width
        = 900
      ∧ (Barchart.settle (Barchart.constructorDouble
        { parentElement := "#chart", containerWidth := none, containerHeight := none,
          margin := none }
        [{ state := "A", percent := 10 }, { state := "B", percent := 30 },
         { state := "C", percent := 20 }, { state := "D", percent := 5 }]).updateVisDouble).bars.map
          (fun b => (b.datum.state, b.x, b.width))
        = [("A", Attr.num 0, Attr.num (1666628151576253 / 8796093022208)),
           ("B", Attr.num (520821297367579 / 2199023255552),
             Attr.num (1666628151576253 / 8796093022208)),
           ("C", Attr.num (520821297367579 / 1099511627776),
             Attr.num (1666628151576253 / 8796093022208)),
           ("D", Attr.num (1562463892102737 / 2199023255552),
             Attr.num (1666628151576253 / 8796093022208))]
      ∧ (900 : ℚ) < 1562463892102737 / 2199023255552 + 1666628151576253 / 8796093022208
      ∧ (Barchart.constructorDouble
        { parentElement := "#chart", containerWidth := none, containerHeight := none,
          margin := none }
        [{ state := "A", percent := 1 }, { state := "B", percent := 1 },
         { state := "C", percent := 1 }, { state := "D", percent := 1 },
         { state := "E", percent := 1 }, { state := "F", percent := 1 },
         { state := "G", percent := 1 }, { state := "H", percent := 1 },
         { state := "I", percent := 1 }, { state := "J", percent := 1 },
         { state := "K", percent := 1 }, { state := "L", percent := 1 },
         { state := "M", percent := 1 }, { state := "N", percent := 1 }]).updateVisDouble.isOk
        = true
      ∧ ((Barchart.settle (Barchart.constructorDouble
        { parentElement := "#chart", containerWidth := none, containerHeight := none,
          margin := none }
        [{ state := "A", percent := 1 }, { state := "B", percent := 1 },
         { state := "C", percent := 1 }, { state := "D", percent := 1 },
         { state := "E", percent := 1 }, { state := "F", percent := 1 },
         { state := "G", percent := 1 }, { state := "H", percent := 1 },
         { state := "I", percent := 1 }, { state := "J", percent := 1 },
         { state := "K", percent := 1 }, { state := "L", percent := 1 },
         { state := "M", percent := 1 }, { state := "N", percent := 1 }]).updateVisDouble).bars.map
          (fun b => (b.datum.state, b.x))).head?
        = some ("A", Attr.num (-1 / 17592186044416))
      ∧ (-1 / 17592186044416 : ℚ) < 0 := by
  decide!

/-- C10, amended: for every non-empty dataset `D`, after `updateVis` all bars
share one width, also in doubles and from any prior state; in exact
arithmetic, in every state reached from construction with positive inner
width, the band step is positive, the width is `0.8` of the step (the gap
between neighbouring bands `0.2` of it), consecutive categories of the domain
are exactly one step apart, and every bar lies inside the inner area:
`0 ≤ x` and `x + width ≤ innerWidth`. -/
theorem band_layout_of_bars (cfg : RawConfig) (D0 : List Record) (calls : List Call)
    (vis : Barchart) (D : List Record) (hne : D ≠ [])
    (hw : 0 < ((Barchart.constructor cfg D0).run calls).width) :
    (∃ vis1,
      (((Barchart.constructor cfg D0).run calls).setData D).updateVis = Except.ok vis1
      ∧ vis1.width = ((Barchart.constructor cfg D0).run calls).width
      ∧ 0 < vis1.xScale.step
      ∧ vis1.xScale.bandwidth = 4 / 5 * vis1.xScale.step
      ∧ vis1.xScale.step - vis1.xScale.bandwidth = 1 / 5 * vis1.xScale.step
      ∧ (∀ k (hk : k + 1 < vis1.xScale.domain.length), ∃ x0 x1,
          vis1.xScale.apply (vis1.xScale.domain[k]) = some x0
          ∧ vis1.xScale.apply (vis1.xScale.domain[k + 1]) = some x1
          ∧ x1 = x0 + vis1.xScale.step)
      ∧ (∀ i (hi : i < D.length), ∃ b x,
          vis1.bars[i]? = some b ∧ b.datum = D[i]
          ∧ b.x = Attr.num x ∧ b.width = Attr.num vis1.xScale.bandwidth
          ∧ 0 ≤ x ∧ x + vis1.xScale.bandwidth ≤ vis1.width))
    ∧ (∃ vis1,
      (vis.setData D).updateVisDouble = Except.ok vis1
      ∧ (∀ i (hi : i < D.length), ∃ b,
          vis1.bars[i]? = some b ∧ b.datum = D[i]
          ∧ b.width = Attr.num vis1.xScale.bandwidthDouble)) := by
  refine ⟨bands_inside_inner_width_exact cfg D0 calls D hne hw, ?_⟩
  obtain ⟨vis1, hok, -, -, hbars⟩ := updateVisDouble_spec vis D
  refine ⟨vis1, hok, ?_⟩
  intro i hi
  obtain ⟨b, hb, hd, hbw, -⟩ := hbars i hi
  exact ⟨b, hb, hd, hbw⟩

/-- C10 witness: default configuration, three distinct states. -/
theorem band_layout_of_bars_witness :
    (∃ vis1,
      (((Barchart.constructor
          { parentElement := "#chart", containerWidth := none, containerHeight := none,
            margin := none } []).run []).setData
        [{ state := "A", percent := 10 }, { state := "B", percent := 30 },
         { state := "C", percent := 20 }]).updateVis = Except.ok vis1
      ∧ vis1.width = ((Barchart.constructor
          { parentElement := "#chart", containerWidth := none, containerHeight := none,
            margin := none } []).run []).width
      ∧ 0 < vis1.xScale.step
      ∧ vis1.xScale.bandwidth = 4 / 5 * vis1.xScale.step
      ∧ vis1.xScale.step - vis1.xScale.bandwidth = 1 / 5 * vis1.xScale.step
      ∧ (∀ k (hk : k + 1 < vis1.xScale.domain.length), ∃ x0 x1,
          vis1.xScale.apply (vis1.xScale.domain[k]) = some x0
          ∧ vis1.xScale.apply (vis1.xScale.domain[k + 1]) = some x1
          ∧ x1 = x0 + vis1.xScale.step)
      ∧ (∀ i (hi : i < ([{ state := "A", percent := 10 }, { state := "B", percent := 30 },
         { state := "C", percent := 20 }] : List Record).length), ∃ b x,
          vis1.bars[i]? = some b
          ∧ b.datum = ([{ state := "A", percent := 10 }, { state := "B", percent := 30 },
         { state := "C", percent := 20 }] : List Record)[i]
          ∧ b.x = Attr.num x ∧ b.width = Attr.num vis1.xScale.bandwidth
          ∧ 0 ≤ x ∧ x + vis1.xScale.bandwidth ≤ vis1.width))
    ∧ (∃ vis1,
      ((Barchart.constructorDouble
          { parentElement := "#chart", containerWidth := none, containerHeight := none,
            margin := none } []).setData
        [{ state := "A", percent := 10 }, { state := "B", percent := 30 },
         { state := "C", percent := 20 }]).updateVisDouble = Except.ok vis1
      ∧ (∀ i (hi : i < ([{ state := "A", percent := 10 }, { state := "B", percent := 30 },
         { state := "C", percent := 20 }] : List Record).length), ∃ b,
          vis1.bars[i]? = some b
          ∧ b.datum = ([{ state := "A", percent := 10 }, { state := "B", percent := 30 },
         { state := "C", percent := 20 }] : List Record)[i]
          ∧ b.width = Attr.num vis1.xScale.bandwidthDouble)) :=
  band_layout_of_bars _ [] [] _ _ (by simp)
    (by simp only [Barchart.run, List.foldl, Barchart.constructor, Barchart.initVis, orDefault]
        norm_num)
